import Mathlib

/-!
Formal model of the mr_browser_use repository: the tab/window tracker
(`tab_handler.py`), the element-addressed browser operations and the session
registry (`browser_control.py`).  Selenium's WebDriver is modelled as an
explicit state (`Driver`): the list of live window handles, the active
window, page contents, and flags that make individual primitive calls raise
(a raised exception is an `Except.error`; Python code with no surrounding
try/except is a function returning `Except`, while code whose whole body is
wrapped in try/except is a total function returning a `Result`).
-/

namespace MrBrowserUse

/-- A structured result dictionary as returned by the Python operations.
Fields that a given dictionary does not carry are `none`. -/
structure Result where
  status : String
  message : Option String := none
  handle : Option String := none
  url : Option String := none
  title : Option String := none
  new_tab_opened : Option Bool := none
  original_handle : Option String := none
deriving DecidableEq

/-- One entry of the list produced by `get_all_tabs`. -/
structure TabInfo where
  handle : String
  url : String
  title : String
  is_current : Bool
deriving DecidableEq

/-- Model of a Selenium WebDriver.  `windows` is the live window-handle list
(in enumeration order), `current` the active window.  `urlFails w` makes
reading the page URL while window `w` is active raise (modelling a page-level
driver fault; title reads are modelled as faulting at the URL read first),
`handlesFails` makes every driver round-trip raise (crashed driver).
`hasElement` tells whether `window.browserUseElements[id]` resolves and
`clickOpens id` lists the window handles that clicking element `id` opens. -/
structure Driver where
  windows : List String
  current : String
  pageUrl : String → String
  pageTitle : String → String
  urlFails : String → Bool
  handlesFails : Bool
  hasElement : Nat → Bool
  clickOpens : Nat → List String

/-- `driver.window_handles`: raises iff the driver connection is down. -/
def Driver.window_handles (d : Driver) : Except String (List String) :=
  if d.handlesFails then .error "browser disconnected" else .ok d.windows

/-- `driver.current_window_handle`: raises when the driver is down or the
active window has been closed. -/
def Driver.current_window_handle (d : Driver) : Except String String :=
  if d.handlesFails then .error "browser disconnected"
  else if d.current ∈ d.windows then .ok d.current
  else .error "no such window"

/-- `driver.switch_to.window(h)`: raises when the driver is down or `h` is
not a live window. -/
def Driver.switch_to_window (d : Driver) (h : String) : Except String Driver :=
  if d.handlesFails then .error "browser disconnected"
  else if h ∈ d.windows then .ok { d with current := h }
  else .error "no such window"

/-- `driver.current_url`: raises when the driver is down, the active window
is closed, or the page read faults (`urlFails`). -/
def Driver.current_url (d : Driver) : Except String String :=
  if d.handlesFails then .error "browser disconnected"
  else if d.current ∈ d.windows then
    if d.urlFails d.current then .error "page read failed"
    else .ok (d.pageUrl d.current)
  else .error "no such window"

/-- `driver.title`: raises when the driver is down or the active window is
closed (page-read faults are modelled on the URL read, which the source
always performs first). -/
def Driver.current_title (d : Driver) : Except String String :=
  if d.handlesFails then .error "browser disconnected"
  else if d.current ∈ d.windows then .ok (d.pageTitle d.current)
  else .error "no such window"

/-- `driver.close()`: removes the active window from the live set; the
active-window pointer is left dangling, exactly as in Selenium. -/
def Driver.close_window (d : Driver) : Except String Driver :=
  if d.handlesFails then .error "browser disconnected"
  else if d.current ∈ d.windows then .ok { d with windows := d.windows.erase d.current }
  else .error "no such window"

/-- `driver.execute_script("return window.browserUseElements[id]")`:
tells whether the element resolves; raises only if the driver is down. -/
def Driver.lookup_element (d : Driver) (eid : Nat) : Except String Bool :=
  if d.handlesFails then .error "browser disconnected" else .ok (d.hasElement eid)

/-- `element.click()` for element `eid`: appends any windows the click opens. -/
def Driver.click_element_raw (d : Driver) (eid : Nat) : Except String Driver :=
  if d.handlesFails then .error "browser disconnected"
  else .ok { d with windows := d.windows ++ d.clickOpens eid }

/-- The `TabHandler` state: the window captured at construction time and the
set of known window handles (modelled as a list with set semantics, as the
source uses a Python `set`). -/
structure TabState where
  original_window : String
  known_windows : List String
deriving DecidableEq

/-- `TabHandler.__init__`: captures the driver's current window. -/
def TabHandler.mk_state (d : Driver) : TabState :=
  { original_window := d.current, known_windows := [d.current] }

/-- `TabHandler.detect_new_tabs`.  The body has no try/except, so the
`window_handles` read may raise (`Except.error`).  On discovery of new
windows, `known_windows` is replaced wholesale by the live set. -/
def detect_new_tabs (d : Driver) (s : TabState) :
    Except String (Option String × TabState) :=
  match d.window_handles with
  | .error e => .error e
  | .ok current_windows =>
    let new_windows := current_windows.filter (fun h => !decide (h ∈ s.known_windows))
    match new_windows.head? with
    | some h => .ok (some h, { s with known_windows := current_windows })
    | none => .ok (none, s)

/-- Loop body of `TabHandler.get_all_tabs`: visit each handle, read its URL
and title, then switch back to `cur`.  No try/except: any raise propagates,
carrying the driver state at the point of the raise. -/
def get_all_tabs_loop (cur : String) :
    List String → Driver → List TabInfo →
    Except (String × Driver) (List TabInfo × Driver)
  | [], d, acc =>
    match d.switch_to_window cur with
    | .error e => .error (e, d)
    | .ok d2 => .ok (acc.reverse, d2)
  | h :: rest, d, acc =>
    match d.switch_to_window h with
    | .error e => .error (e, d)
    | .ok d2 =>
      match d2.current_url with
      | .error e => .error (e, d2)
      | .ok u =>
        match d2.current_title with
        | .error e => .error (e, d2)
        | .ok t =>
          get_all_tabs_loop cur rest d2
            ({ handle := h, url := u, title := t, is_current := decide (h = cur) } :: acc)

/-- `TabHandler.get_all_tabs`.  No try/except anywhere in the body. -/
def get_all_tabs (d : Driver) :
    Except (String × Driver) (List TabInfo × Driver) :=
  match d.current_window_handle with
  | .error e => .error (e, d)
  | .ok cur =>
    match d.window_handles with
    | .error e => .error (e, d)
    | .ok hs => get_all_tabs_loop cur hs d []

/-- `TabHandler.switch_to_tab`: the whole body is inside try/except, so the
operation is total and converts any raise into an error `Result`. -/
def switch_to_tab (d : Driver) (h : String) : Result × Driver :=
  match d.switch_to_window h with
  | .error e => ({ status := "error", message := some e }, d)
  | .ok d2 =>
    match d2.current_url with
    | .error e => ({ status := "error", message := some e }, d2)
    | .ok u =>
      match d2.current_title with
      | .error e => ({ status := "error", message := some e }, d2)
      | .ok t =>
        ({ status := "ok", handle := some h, url := some u, title := some t }, d2)

/-- `TabHandler.switch_to_original_tab`: delegates to `switch_to_tab` on the
handle captured at session start. -/
def switch_to_original_tab (d : Driver) (s : TabState) : Result × Driver :=
  switch_to_tab d s.original_window

/-- `TabHandler.switch_to_newest_tab`.  The `window_handles` read and the
info-dictionary reads in the no-new-tab branch are outside any try/except
and may raise; `known_windows` is reset to the live set before either branch
runs, so a raise in the second branch leaves the state already updated. -/
def switch_to_newest_tab (d : Driver) (s : TabState) :
    Except (String × Driver × TabState) (Result × Driver × TabState) :=
  match d.window_handles with
  | .error e => .error (e, d, s)
  | .ok current_windows =>
    let newest_tab : Option String :=
      if s.known_windows.length < current_windows.length then
        current_windows.reverse.find? (fun h => !decide (h ∈ s.known_windows))
      else none
    let s2 := { s with known_windows := current_windows }
    match newest_tab with
    | some h =>
      let r := switch_to_tab d h
      .ok (r.1, r.2, s2)
    | none =>
      match d.current_window_handle with
      | .error e => .error (e, d, s2)
      | .ok cur =>
        match d.current_url with
        | .error e => .error (e, d, s2)
        | .ok u =>
          match d.current_title with
          | .error e => .error (e, d, s2)
          | .ok t =>
            .ok ({ status := "info", message := some "No new tab found",
                   handle := some cur, url := some u, title := some t }, d, s2)

/-- `TabHandler.close_current_tab`: whole body inside try/except, hence
total.  Closes the active window, discards it from `known_windows`, then
switches to the first remaining window if any. -/
def close_current_tab (d : Driver) (s : TabState) : Result × Driver × TabState :=
  match d.current_window_handle with
  | .error e => ({ status := "error", message := some e }, d, s)
  | .ok current_handle =>
    match d.close_window with
    | .error e => ({ status := "error", message := some e }, d, s)
    | .ok d2 =>
      let s2 := { s with
        known_windows := s.known_windows.filter (fun w => !decide (w = current_handle)) }
      match d2.window_handles with
      | .error e => ({ status := "error", message := some e }, d2, s2)
      | .ok remaining =>
        match remaining with
        | [] => ({ status := "warn", message := some "All tabs closed" }, d2, s2)
        | h :: _ =>
          let r := switch_to_tab d2 h
          (r.1, r.2, s2)

/-- `TabHandler.click_and_switch_if_new_tab`: whole body inside try/except,
hence total.  Clicks the element, waits, diffs the window sets, and either
switches to the new window (annotating the result) or reports the current
window. -/
def click_and_switch_if_new_tab (d : Driver) (s : TabState) (eid : Nat) :
    Result × Driver × TabState :=
  match d.window_handles with
  | .error e => ({ status := "error", message := some e }, d, s)
  | .ok handles_before =>
    match d.lookup_element eid with
    | .error e => ({ status := "error", message := some e }, d, s)
    | .ok b =>
      if !b then
        ({ status := "error",
           message := some ("Element " ++ toString eid ++ " not found") }, d, s)
      else
        match d.click_element_raw eid with
        | .error e => ({ status := "error", message := some e }, d, s)
        | .ok d2 =>
          match d2.window_handles with
          | .error e => ({ status := "error", message := some e }, d2, s)
          | .ok handles_after =>
            let new_tabs := handles_after.filter (fun h => !decide (h ∈ handles_before))
            match new_tabs.head? with
            | some new_tab =>
              let s2 := { s with known_windows := handles_after }
              let r := switch_to_tab d2 new_tab
              if r.1.status = "ok" then
                ({ r.1 with
                    new_tab_opened := some true,
                    original_handle := some s.original_window,
                    message := some ("Clicked element and switched to new tab: "
                      ++ (r.1.title.getD "")) }, r.2, s2)
              else (r.1, r.2, s2)
            | none =>
              match d2.current_window_handle with
              | .error e => ({ status := "error", message := some e }, d2, s)
              | .ok cur =>
                match d2.current_url with
                | .error e => ({ status := "error", message := some e }, d2, s)
                | .ok u =>
                  match d2.current_title with
                  | .error e => ({ status := "error", message := some e }, d2, s)
                  | .ok t =>
                    ({ status := "ok", new_tab_opened := some false,
                       message := some "Element clicked, no new tab opened",
                       handle := some cur, url := some u, title := some t }, d2, s)

/-- Whether an `Except` computation finished without raising. -/
def exOk {ε α : Type} : Except ε α → Bool
  | .ok _ => true
  | .error _ => false

/-- Active window after a `get_all_tabs` call, whether it returned or raised. -/
def post_current : Except (String × Driver) (List TabInfo × Driver) → String
  | .ok p => p.2.current
  | .error p => p.2.current

/-! Traces over the tab tracker.  A step is either one of the state-mutating
tracker operations named in the spec, or an environment action that replaces
the live window set (windows opened or closed outside the tracker's
control). -/

/-- One step of a tab-tracker session history. -/
inductive TraceStep where
  | envSet (ws : List String)
  | detect
  | newest
  | closeCur
  | clickSwitch (eid : Nat)
deriving DecidableEq

/-- Execute one step.  Operations that raise (no try/except in the source)
leave the configuration at the raise point: the exception would propagate to
the caller, but driver and tracker state are whatever the partial execution
produced. -/
def applyStep : TraceStep → Driver × TabState → Driver × TabState
  | .envSet ws, (d, s) => ({ d with windows := ws }, s)
  | .detect, (d, s) =>
    match detect_new_tabs d s with
    | .ok p => (d, p.2)
    | .error _ => (d, s)
  | .newest, (d, s) =>
    match switch_to_newest_tab d s with
    | .ok p => (p.2.1, p.2.2)
    | .error p => (p.2.1, p.2.2)
  | .closeCur, (d, s) =>
    let r := close_current_tab d s
    (r.2.1, r.2.2)
  | .clickSwitch eid, (d, s) =>
    let r := click_and_switch_if_new_tab d s eid
    (r.2.1, r.2.2)

/-- Run a whole trace. -/
def runTrace : List TraceStep → Driver × TabState → Driver × TabState
  | [], c => c
  | st :: rest, c => runTrace rest (applyStep st c)

/-- A trace never closes the window `orig`: every environment action keeps
`orig` alive, and `close_current_tab` never runs while `orig` is the active
window. -/
def trackerOriginalSafe (orig : String) : List TraceStep → Driver × TabState → Bool
  | [], _ => true
  | st :: rest, c =>
    (match st with
     | .envSet ws => decide (orig ∈ ws)
     | .closeCur => !decide (c.1.current = orig)
     | _ => true) && trackerOriginalSafe orig rest (applyStep st c)

/-! The element-addressed operations of `BrowserClient`
(`browser_control.py`).  The in-page world they touch is modelled as a
`Page`: which integer IDs resolve to live elements and the checked state of
each (checkbox) element. -/

/-- The in-page element table and checkbox states. -/
structure Page where
  elems : Nat → Bool
  checked : Nat → Bool

/-- Python's `str(bool)` rendering, used in result messages. -/
def pyBool (b : Bool) : String := if b then "True" else "False"

/-- `BrowserClient.set_checkbox`: the injected script toggles (clicks) the
checkbox only when its current state differs from the requested one.  The
third component counts the clicks the call issued. -/
def set_checkbox (p : Page) (eid : Nat) (checked : Bool) : Result × Page × Nat :=
  if p.elems eid then
    if p.checked eid != checked then
      ({ status := "ok",
         message := some ("Set checkbox " ++ toString eid ++ " to " ++ pyBool checked) },
       { p with checked := fun j => if j = eid then !p.checked j else p.checked j }, 1)
    else
      ({ status := "ok",
         message := some ("Set checkbox " ++ toString eid ++ " to " ++ pyBool checked) },
       p, 0)
  else
    ({ status := "error",
       message := some ("Element " ++ toString eid ++ " not found or not a checkbox") },
     p, 0)

/-- `BrowserClient.drag_and_drop`: the script returns the pair of element
lookups; if either is missing the operation errors out before any
interaction.  The second component records whether the drag primitive ran. -/
def drag_and_drop (p : Page) (source_id target_id : Nat) : Result × Bool :=
  if p.elems source_id && p.elems target_id then
    ({ status := "ok",
       message := some ("Dragged element " ++ toString source_id
         ++ " to element " ++ toString target_id) }, true)
  else
    ({ status := "error", message := some "Source or target element not found" }, false)

/-- The selection primitive `BrowserClient.select_option` ends up invoking. -/
inductive SelectAction where
  | byText (t : String)
  | byValue (v : String)
deriving DecidableEq

/-- `BrowserClient.select_option`: resolve the element, then dispatch on
which of `option_text` / `option_value` is present (text checked first).
The second component is the selection primitive invoked, if any. -/
def select_option (p : Page) (eid : Nat)
    (option_text option_value : Option String) : Result × Option SelectAction :=
  if !p.elems eid then
    ({ status := "error",
       message := some ("Element " ++ toString eid ++ " not found") }, none)
  else
    match option_text with
    | some t =>
      ({ status := "ok",
         message := some ("Selected option with text \x27" ++ t ++ "\x27") },
       some (.byText t))
    | none =>
      match option_value with
      | some v =>
        ({ status := "ok",
           message := some ("Selected option with value \x27" ++ v ++ "\x27") },
         some (.byValue v))
      | none =>
        ({ status := "error",
           message := some "Either option_text or option_value must be provided" }, none)

/-- Python's `str.lower()` restricted to what `Char.toLower` covers. -/
def pyLower (s : String) : String := ⟨s.data.map Char.toLower⟩

/-- The direction table of `BrowserClient.scroll`. -/
def scroll_map (amount : Int) : List (String × (Int × Int)) :=
  [("down", (0, amount)), ("up", (0, -amount)),
   ("right", (amount, 0)), ("left", (-amount, 0))]

/-- `BrowserClient.scroll`: looks the lowercased direction up in the table,
defaulting to `(0, amount)`, and issues `window.scrollBy(x, y)`.  The second
component is the `(x, y)` pair passed to `scrollBy`. -/
def scroll (direction : String) (amount : Int) : Result × Int × Int :=
  let xy := ((scroll_map amount).lookup (pyLower direction)).getD (0, amount)
  ({ status := "ok",
     message := some ("Scrolled " ++ direction ++ " by " ++ toString amount ++ " pixels") },
   xy)

/-! The session registry (`_browser_sessions` in `browser_control.py`).
Clients are identified by opaque tokens (`Nat`); the registry is an
association list keyed by session id, with dictionary semantics. -/

/-- Session-id derivation shared by `start_browser` / `get_browser_client`. -/
def session_key (user : Option String) : String :=
  match user with
  | some u => "browser_" ++ u
  | none => "browser_default"

/-- The `_browser_sessions` dictionary. -/
abbrev Registry := List (String × Nat)

/-- `start_browser`: if a session already exists for the identity, report
"already running" and leave the registry alone; otherwise attempt the
(externally supplied) driver launch and register the new client on success. -/
def start_browser (reg : Registry) (user : Option String)
    (launch : Except String Nat) : Result × Registry :=
  let sid := session_key user
  if (reg.lookup sid).isSome then
    ({ status := "ok", message := some "Browser is already running" }, reg)
  else
    match launch with
    | .ok client =>
      ({ status := "ok", message := some "Browser started successfully" },
       (sid, client) :: reg)
    | .error e =>
      ({ status := "error", message := some ("Failed to start browser: " ++ e) }, reg)

/-- Number of registry entries for a given session id. -/
def countKey (reg : Registry) (sid : String) : Nat :=
  (reg.filter (fun kv => kv.1 == sid)).length

/-! Inversion lemmas for the driver primitives. -/

theorem window_handles_ok_iff (d : Driver) (l : List String) :
    d.window_handles = .ok l ↔ d.handlesFails = false ∧ l = d.windows := by
  unfold Driver.window_handles
  split_ifs with hf <;> simp_all <;> exact eq_comm

theorem switch_to_window_ok_iff (d d2 : Driver) (h : String) :
    d.switch_to_window h = .ok d2 ↔
      d.handlesFails = false ∧ h ∈ d.windows ∧ d2 = { d with current := h } := by
  unfold Driver.switch_to_window
  split_ifs with hf hm <;> simp_all <;> exact eq_comm

theorem current_window_handle_ok_iff (d : Driver) (c : String) :
    d.current_window_handle = .ok c ↔
      d.handlesFails = false ∧ d.current ∈ d.windows ∧ c = d.current := by
  unfold Driver.current_window_handle
  split_ifs with hf hm <;> simp_all <;> exact eq_comm

theorem current_url_ok_iff (d : Driver) (u : String) :
    d.current_url = .ok u ↔
      d.handlesFails = false ∧ d.current ∈ d.windows ∧
        d.urlFails d.current = false ∧ u = d.pageUrl d.current := by
  unfold Driver.current_url
  split_ifs with hf hm hu <;> simp_all <;> exact eq_comm

theorem current_title_ok_iff (d : Driver) (t : String) :
    d.current_title = .ok t ↔
      d.handlesFails = false ∧ d.current ∈ d.windows ∧ t = d.pageTitle d.current := by
  unfold Driver.current_title
  split_ifs with hf hm <;> simp_all <;> exact eq_comm

theorem close_window_ok_iff (d d2 : Driver) :
    d.close_window = .ok d2 ↔
      d.handlesFails = false ∧ d.current ∈ d.windows ∧
        d2 = { d with windows := d.windows.erase d.current } := by
  unfold Driver.close_window
  split_ifs with hf hm <;> simp_all <;> exact eq_comm

/-! Structural lemmas about `switch_to_tab`. -/

/-- Switching windows never changes the live window set. -/
theorem switch_to_tab_windows (d : Driver) (h : String) :
    ((switch_to_tab d h).2).windows = d.windows := by
  unfold switch_to_tab
  rcases hsw : d.switch_to_window h with e | d2
  · simp [hsw]
  · have hd2 : d2.windows = d.windows := by
      rw [switch_to_window_ok_iff] at hsw
      rcases hsw with ⟨-, -, rfl⟩
      rfl
    rcases hu : d2.current_url with e | u
    · simp [hsw, hu, hd2]
    · rcases ht : d2.current_title with e | t <;> simp [hsw, hu, ht, hd2]

/-- A `switch_to_tab` result is tagged "ok" or "error". -/
theorem switch_to_tab_status (d : Driver) (h : String) :
    (switch_to_tab d h).1.status = "ok" ∨ (switch_to_tab d h).1.status = "error" := by
  unfold switch_to_tab
  rcases hsw : d.switch_to_window h with e | d2
  · simp [hsw]
  · rcases hu : d2.current_url with e | u
    · simp [hsw, hu]
    · rcases ht : d2.current_title with e | t <;> simp [hsw, hu, ht]

/-- An "ok" result of `switch_to_tab` carries the requested handle, which is
then a live window. -/
theorem switch_to_tab_ok (d : Driver) (h : String)
    (hok : (switch_to_tab d h).1.status = "ok") :
    (switch_to_tab d h).1.handle = some h ∧ h ∈ ((switch_to_tab d h).2).windows := by
  unfold switch_to_tab at hok ⊢
  rcases hsw : d.switch_to_window h with e | d2
  · simp [hsw] at hok
  · have hmem : h ∈ d2.windows := by
      rw [switch_to_window_ok_iff] at hsw
      rcases hsw with ⟨-, hm, rfl⟩
      exact hm
    rcases hu : d2.current_url with e | u
    · simp [hsw, hu] at hok
    · rcases ht : d2.current_title with e | t
      · simp [hsw, hu, ht] at hok
      · simpa [hsw, hu, ht] using hmem

/-- Claim C8: `switch_to_original_tab` always targets the handle captured at
session start; if that window has been closed it returns a result with
status "error" (and no handle), and it never returns a success result
referencing a dead handle. -/
theorem switch_to_original_tab_spec (d : Driver) (s : TabState) :
    (s.original_window ∉ d.windows →
      (switch_to_original_tab d s).1.status = "error" ∧
      (switch_to_original_tab d s).1.handle = none) ∧
    ((switch_to_original_tab d s).1.status = "ok" →
      (switch_to_original_tab d s).1.handle = some s.original_window ∧
      s.original_window ∈ ((switch_to_original_tab d s).2).windows) := by
  constructor
  · intro hdead
    unfold switch_to_original_tab switch_to_tab
    rcases hsw : d.switch_to_window s.original_window with e | d2
    · simp
    · rw [switch_to_window_ok_iff] at hsw
      exact absurd hsw.2.1 hdead
  · intro hok
    exact switch_to_tab_ok d s.original_window hok

/-- Witness for C8 at a concrete driver whose original window is closed. -/
theorem switch_to_original_tab_spec_witness :
    (switch_to_original_tab
        { windows := ["B"], current := "B",
          pageUrl := fun _ => "u", pageTitle := fun _ => "t",
          urlFails := fun _ => false, handlesFails := false,
          hasElement := fun _ => true, clickOpens := fun _ => [] }
        { original_window := "A", known_windows := ["A", "B"] }).1.status = "error" ∧
    (switch_to_original_tab
        { windows := ["B"], current := "B",
          pageUrl := fun _ => "u", pageTitle := fun _ => "t",
          urlFails := fun _ => false, handlesFails := false,
          hasElement := fun _ => true, clickOpens := fun _ => [] }
        { original_window := "A", known_windows := ["A", "B"] }).1.handle = none :=
  (switch_to_original_tab_spec _ _).1 (by decide)

/-- Claim C5: `set_checkbox(id, true)` twice in a row leaves the box checked
after both calls, the second call issues no click, and both calls return an
"ok" result. -/
theorem set_checkbox_idempotent (p : Page) (eid : Nat) (h : p.elems eid = true) :
    (set_checkbox p eid true).2.1.checked eid = true ∧
    (set_checkbox (set_checkbox p eid true).2.1 eid true).2.1.checked eid = true ∧
    (set_checkbox (set_checkbox p eid true).2.1 eid true).2.2 = 0 ∧
    (set_checkbox p eid true).1.status = "ok" ∧
    (set_checkbox (set_checkbox p eid true).2.1 eid true).1.status = "ok" := by
  unfold set_checkbox
  rcases hc : p.checked eid <;> simp [h, hc]

/-- Witness for C5 on a concrete page with element 0 initially unchecked. -/
theorem set_checkbox_idempotent_witness :
    (set_checkbox ⟨fun _ => true, fun _ => false⟩ 0 true).2.1.checked 0 = true ∧
    (set_checkbox (set_checkbox ⟨fun _ => true, fun _ => false⟩ 0 true).2.1 0 true).2.1.checked 0 = true ∧
    (set_checkbox (set_checkbox ⟨fun _ => true, fun _ => false⟩ 0 true).2.1 0 true).2.2 = 0 ∧
    (set_checkbox ⟨fun _ => true, fun _ => false⟩ 0 true).1.status = "ok" ∧
    (set_checkbox (set_checkbox ⟨fun _ => true, fun _ => false⟩ 0 true).2.1 0 true).1.status = "ok" :=
  set_checkbox_idempotent ⟨fun _ => true, fun _ => false⟩ 0 rfl

/-- Claim C6: `drag_and_drop` is all-or-nothing: if either ID fails to
resolve it returns the fixed error result and no drag primitive runs; the
drag runs exactly when both IDs resolve. -/
theorem drag_and_drop_all_or_nothing (p : Page) (source_id target_id : Nat) :
    ((p.elems source_id = false ∨ p.elems target_id = false) →
      drag_and_drop p source_id target_id =
        ({ status := "error", message := some "Source or target element not found" },
         false)) ∧
    ((drag_and_drop p source_id target_id).2 = true ↔
      (p.elems source_id = true ∧ p.elems target_id = true)) := by
  unfold drag_and_drop
  rcases hs : p.elems source_id <;> rcases ht : p.elems target_id <;> simp

/-- Witness for C6: ID 999 unresolved on a page where only ID 1 resolves. -/
theorem drag_and_drop_all_or_nothing_witness :
    drag_and_drop ⟨fun j => decide (j = 1), fun _ => false⟩ 999 1 =
      ({ status := "error", message := some "Source or target element not found" },
       false) :=
  (drag_and_drop_all_or_nothing ⟨fun j => decide (j = 1), fun _ => false⟩ 999 1).1
    (Or.inl rfl)

/-- Claim C9: `select_option` on a resolvable ID selects by visible text
whenever `option_text` is given (even if `option_value` is also given),
selects by value when only `option_value` is given, and errors with the
fixed message when neither is given. -/
theorem select_option_dispatch (p : Page) (eid : Nat) (ot ov : Option String)
    (h : p.elems eid = true) :
    (∀ t, ot = some t →
      select_option p eid ot ov =
        ({ status := "ok",
           message := some ("Selected option with text \x27" ++ t ++ "\x27") },
         some (.byText t))) ∧
    (ot = none → ∀ v, ov = some v →
      select_option p eid ot ov =
        ({ status := "ok",
           message := some ("Selected option with value \x27" ++ v ++ "\x27") },
         some (.byValue v))) ∧
    (ot = none → ov = none →
      select_option p eid ot ov =
        ({ status := "error",
           message := some "Either option_text or option_value must be provided" },
         none)) := by
  unfold select_option
  refine ⟨fun t hot => ?_, fun hot v hov => ?_, fun hot hov => ?_⟩ <;>
    subst_vars <;> simp [h]

/-- Witness for C9: neither text nor value supplied on a resolvable ID. -/
theorem select_option_dispatch_witness :
    select_option ⟨fun _ => true, fun _ => false⟩ 7 none none =
      ({ status := "error",
         message := some "Either option_text or option_value must be provided" },
       none) :=
  (select_option_dispatch ⟨fun _ => true, fun _ => false⟩ 7 none none rfl).2.2 rfl rfl

/-- The scroll delta of the recognised direction "down". -/
theorem scroll_down_delta (amount : Int) : (scroll "down" amount).2 = (0, amount) := by
  have hl : pyLower "down" = "down" := by decide
  simp [scroll, scroll_map, hl, List.lookup]

/-- Claim C10: any direction whose lowercasing is not one of
up/down/left/right scrolls by `(0, amount)` — exactly the delta of
`scroll("down", amount)` — and still returns a success result. -/
theorem scroll_unknown_direction_defaults_down (direction : String) (amount : Int)
    (h : pyLower direction ∉ ["up", "down", "left", "right"]) :
    (scroll direction amount).2 = (0, amount) ∧
    (scroll direction amount).2 = (scroll "down" amount).2 ∧
    (scroll direction amount).1.status = "ok" := by
  simp only [List.mem_cons, List.not_mem_nil, or_false, not_or] at h
  obtain ⟨h1, h2, h3, h4⟩ := h
  have e1 : (pyLower direction == "down") = false := by simp [h2]
  have e2 : (pyLower direction == "up") = false := by simp [h1]
  have e3 : (pyLower direction == "right") = false := by simp [h4]
  have e4 : (pyLower direction == "left") = false := by simp [h3]
  refine ⟨?_, ?_, ?_⟩
  · simp [scroll, scroll_map, List.lookup, e1, e2, e3, e4]
  · rw [scroll_down_delta]
    simp [scroll, scroll_map, List.lookup, e1, e2, e3, e4]
  · simp [scroll]

/-- Witness for C10 at the unrecognised direction "diagonal". -/
theorem scroll_unknown_direction_defaults_down_witness :
    (scroll "diagonal" 300).2 = (0, 300) ∧
    (scroll "diagonal" 300).2 = (scroll "down" 300).2 ∧
    (scroll "diagonal" 300).1.status = "ok" :=
  scroll_unknown_direction_defaults_down "diagonal" 300 (by decide)

/-- A session id absent from the registry (as `lookup` sees it) occurs zero
times in it. -/
theorem countKey_eq_zero_of_lookup_none (reg : Registry) (sid : String)
    (h : reg.lookup sid = none) : countKey reg sid = 0 := by
  induction reg with
  | nil => rfl
  | cons kv rest ih =>
    rcases hk : (sid == kv.1) with _ | _
    · have hk2 : (kv.1 == sid) = false := by
        simp only [beq_eq_false_iff_ne] at hk ⊢
        exact fun he => hk he.symm
      simp only [List.lookup, hk] at h
      simp only [countKey, List.filter, hk2]
      exact ih h
    · simp [List.lookup, hk] at h

/-- Claim C7: starting a browser twice for the same identity is idempotent:
the first successful start registers exactly one session, and the second
start reports "Browser is already running" without touching the registry. -/
theorem start_browser_idempotent (reg : Registry) (user : Option String) (c : Nat)
    (launch2 : Except String Nat)
    (h : reg.lookup (session_key user) = none) :
    (start_browser reg user (Except.ok c)).1.status = "ok" ∧
    (start_browser reg user (Except.ok c)).2 = (session_key user, c) :: reg ∧
    start_browser ((session_key user, c) :: reg) user launch2 =
      ({ status := "ok", message := some "Browser is already running" },
       (session_key user, c) :: reg) ∧
    countKey ((session_key user, c) :: reg) (session_key user) = 1 := by
  refine ⟨?_, ?_, ?_, ?_⟩
  · simp [start_browser, h]
  · simp [start_browser, h]
  · simp [start_browser, List.lookup]
  · simp only [countKey, List.filter, beq_self_eq_true, List.length_cons]
    have := countKey_eq_zero_of_lookup_none reg (session_key user) h
    simp only [countKey] at this
    omega

/-- Witness for C7: empty registry, default identity, client token 7. -/
theorem start_browser_idempotent_witness :
    (start_browser [] none (Except.ok 7)).1.status = "ok" ∧
    (start_browser [] none (Except.ok 7)).2 = (session_key none, 7) :: [] ∧
    start_browser ((session_key none, 7) :: []) none (Except.error "boom") =
      ({ status := "ok", message := some "Browser is already running" },
       (session_key none, 7) :: []) ∧
    countKey ((session_key none, 7) :: []) (session_key none) = 1 :=
  start_browser_idempotent [] none 7 (Except.error "boom") rfl

/-! Concrete drivers used to exercise the tab operations. -/

/-- A healthy two-window driver: current window "A", second window "B". -/
def dHealthy : Driver :=
  { windows := ["A", "B"], current := "A",
    pageUrl := fun _ => "u", pageTitle := fun _ => "t",
    urlFails := fun _ => false, handlesFails := false,
    hasElement := fun _ => true, clickOpens := fun _ => [] }

/-- A driver whose page reads fault on window "B" only. -/
def dMidFault : Driver :=
  { windows := ["A", "B"], current := "A",
    pageUrl := fun _ => "u", pageTitle := fun _ => "t",
    urlFails := fun w => decide (w = "B"), handlesFails := false,
    hasElement := fun _ => true, clickOpens := fun _ => [] }

/-- A crashed driver: every round-trip raises. -/
def dCrash : Driver :=
  { windows := ["A"], current := "A",
    pageUrl := fun _ => "u", pageTitle := fun _ => "t",
    urlFails := fun _ => false, handlesFails := true,
    hasElement := fun _ => true, clickOpens := fun _ => [] }

/-! Claim C1: restoration of the active window by `get_all_tabs`. -/

/-- When the enumeration loop returns normally, the final driver is switched
back to `cur`. -/
theorem get_all_tabs_loop_restores (cur : String) :
    ∀ (l : List String) (d : Driver) (acc ts : List TabInfo) (d2 : Driver),
      get_all_tabs_loop cur l d acc = .ok (ts, d2) → d2.current = cur := by
  intro l
  induction l with
  | nil =>
    intro d acc ts d2 hok
    unfold get_all_tabs_loop at hok
    rcases hsw : d.switch_to_window cur with e | d3
    · simp [hsw] at hok
    · simp [hsw] at hok
      obtain ⟨-, rfl⟩ := hok
      rw [switch_to_window_ok_iff] at hsw
      rcases hsw with ⟨-, -, rfl⟩
      rfl
  | cons w rest ih =>
    intro d acc ts d2 hok
    unfold get_all_tabs_loop at hok
    rcases hsw : d.switch_to_window w with e | d3
    · simp [hsw] at hok
    · simp only [hsw] at hok
      rcases hu : d3.current_url with e | u
      · simp [hu] at hok
      · simp only [hu] at hok
        rcases ht : d3.current_title with e | t
        · simp [ht] at hok
        · simp only [ht] at hok
          exact ih d3 _ ts d2 hok

/-- Claim C1 (amended): whenever `get_all_tabs` returns normally, the active
window afterwards equals the active window before the call.  (When a page
read fails mid-enumeration the exception propagates with no restoration; see
the counterexample.) -/
theorem get_all_tabs_restores_on_ok (d : Driver) (ts : List TabInfo) (d2 : Driver)
    (hok : get_all_tabs d = .ok (ts, d2)) : d2.current = d.current := by
  unfold get_all_tabs at hok
  rcases hc : d.current_window_handle with e | cur
  · simp [hc] at hok
  · simp only [hc] at hok
    rcases hh : d.window_handles with e | hs
    · simp [hh] at hok
    · simp only [hh] at hok
      have hres := get_all_tabs_loop_restores cur hs d [] ts d2 hok
      rw [current_window_handle_ok_iff] at hc
      rw [hres, hc.2.2]

/-- Counterexample to C1 as stated: on `dMidFault` the URL read of window
"B" raises mid-enumeration, the call propagates the exception, and the
active window is left at "B" instead of being restored to "A". -/
theorem get_all_tabs_fault_no_restore :
    exOk (get_all_tabs dMidFault) = false ∧
    post_current (get_all_tabs dMidFault) = "B" ∧
    dMidFault.current = "A" := by
  refine ⟨by decide, by decide, by decide⟩

/-- Witness for C1 on the healthy two-window driver. -/
theorem get_all_tabs_restores_on_ok_witness :
    get_all_tabs dHealthy =
      .ok ([{ handle := "A", url := "u", title := "t", is_current := true },
            { handle := "B", url := "u", title := "t", is_current := false }],
           { dHealthy with current := "A" }) ∧
    ({ dHealthy with current := "A" } : Driver).current = dHealthy.current :=
  ⟨rfl, get_all_tabs_restores_on_ok dHealthy _ _ rfl⟩

/-! Claim C2: failure semantics of the tab-tracker operations. -/

/-- `close_current_tab` results are tagged "ok", "warn" or "error". -/
theorem close_current_tab_status (d : Driver) (s : TabState) :
    (close_current_tab d s).1.status = "ok" ∨
    (close_current_tab d s).1.status = "warn" ∨
    (close_current_tab d s).1.status = "error" := by
  unfold close_current_tab
  rcases hc : d.current_window_handle with e | ch
  · simp [hc]
  · simp only [hc]
    rcases hcl : d.close_window with e | d2
    · simp [hcl]
    · simp only [hcl]
      rcases hw : d2.window_handles with e | remaining
      · simp [hw]
      · simp only [hw]
        rcases remaining with - | ⟨h2, rest⟩
        · simp
        · simpa using (switch_to_tab_status d2 h2).imp id Or.inr

/-- `click_and_switch_if_new_tab` results are tagged "ok" or "error". -/
theorem click_and_switch_status (d : Driver) (s : TabState) (eid : Nat) :
    (click_and_switch_if_new_tab d s eid).1.status = "ok" ∨
    (click_and_switch_if_new_tab d s eid).1.status = "error" := by
  unfold click_and_switch_if_new_tab
  rcases hw : d.window_handles with e | handles_before
  · simp [hw]
  · simp only [hw]
    rcases hl : d.lookup_element eid with e | b
    · simp [hl]
    · simp only [hl]
      rcases b with - | -
      · simp
      · simp only [Bool.not_true]
        rcases hcl : d.click_element_raw eid with e | d2
        · simp [hcl]
        · simp only [hcl]
          rcases hw2 : d2.window_handles with e | handles_after
          · simp [hw2]
          · simp only [hw2]
            rcases hnew : (handles_after.filter
                (fun h => !decide (h ∈ handles_before))).head? with - | new_tab
            · simp only [hnew]
              rcases hch : d2.current_window_handle with e | cur
              · simp [hch]
              · simp only [hch]
                rcases hu : d2.current_url with e | u
                · simp [hu]
                · simp only [hu]
                  rcases ht : d2.current_title with e | t
                  · simp [ht]
                  · simp [ht]
            · simp only [hnew]
              by_cases hst : (switch_to_tab d2 new_tab).1.status = "ok"
              · simp [hst]
              · simp only [hst, if_false, ite_false]
                exact switch_to_tab_status d2 new_tab

/-- Under a healthy driver the enumeration loop succeeds. -/
theorem get_all_tabs_loop_isOk (cur : String) :
    ∀ (l : List String) (d : Driver) (acc : List TabInfo),
      d.handlesFails = false → cur ∈ d.windows →
      (∀ w ∈ l, w ∈ d.windows ∧ d.urlFails w = false) →
      exOk (get_all_tabs_loop cur l d acc) = true := by
  intro l
  induction l with
  | nil =>
    intro d acc hf hcur _
    simp [get_all_tabs_loop, Driver.switch_to_window, hf, hcur, exOk]
  | cons w rest ih =>
    intro d acc hf hcur hall
    obtain ⟨hwmem, hwurl⟩ := hall w (List.mem_cons_self w rest)
    simp only [get_all_tabs_loop, Driver.switch_to_window, Driver.current_url,
      Driver.current_title, hf, hcur, hwmem, hwurl, if_false, if_true,
      Bool.false_eq_true, ite_false, ite_true]
    exact ih _ _ (by simp) (by simpa using hcur)
      (fun w2 hw2 => by simpa using hall w2 (List.mem_cons_of_mem w hw2))

/-- Claim C2 (amended): the operations whose whole body the source wraps in
try/except (`switch_to_tab`, `switch_to_original_tab`, `close_current_tab`,
`click_and_switch_if_new_tab`) always return a tagged result, but
`detect_new_tabs` raises whenever the driver round-trip fails, and
`get_all_tabs` returns normally only under a fault-free driver. -/
theorem tab_ops_tagged_results (d : Driver) (s : TabState) (h : String) (eid : Nat) :
    ((switch_to_tab d h).1.status = "ok" ∨ (switch_to_tab d h).1.status = "error") ∧
    ((switch_to_original_tab d s).1.status = "ok" ∨
      (switch_to_original_tab d s).1.status = "error") ∧
    ((close_current_tab d s).1.status = "ok" ∨
      (close_current_tab d s).1.status = "warn" ∨
      (close_current_tab d s).1.status = "error") ∧
    ((click_and_switch_if_new_tab d s eid).1.status = "ok" ∨
      (click_and_switch_if_new_tab d s eid).1.status = "error") ∧
    (exOk (detect_new_tabs d s) = true ↔ d.handlesFails = false) ∧
    (d.handlesFails = false → d.current ∈ d.windows →
      (∀ w ∈ d.windows, d.urlFails w = false) →
      exOk (get_all_tabs d) = true) := by
  refine ⟨switch_to_tab_status d h, switch_to_tab_status d s.original_window,
    close_current_tab_status d s, click_and_switch_status d s eid, ?_, ?_⟩
  · unfold detect_new_tabs Driver.window_handles
    rcases hf : d.handlesFails <;> simp [hf, exOk]
    rcases hfind : List.find? (fun h2 => !decide (h2 ∈ s.known_windows)) d.windows
      with - | w <;> simp [hfind, exOk]
  · intro hf hcur hall
    unfold get_all_tabs
    simp only [Driver.current_window_handle, Driver.window_handles, hf,
      Bool.false_eq_true, if_false, hcur, if_true, ite_true]
    exact get_all_tabs_loop_isOk d.current d.windows d [] hf hcur
      (fun w hw => ⟨hw, hall w hw⟩)

/-- Counterexample to C2 as stated: on a crashed driver `detect_new_tabs`
and `get_all_tabs` propagate the raise instead of returning a tagged result. -/
theorem detect_new_tabs_uncaught_fault :
    exOk (detect_new_tabs dCrash { original_window := "A", known_windows := ["A"] })
      = false ∧
    exOk (get_all_tabs dCrash) = false := by
  refine ⟨by decide, by decide⟩

/-- Witness for C2 at the healthy driver. -/
theorem tab_ops_tagged_results_witness :
    (exOk (detect_new_tabs dHealthy { original_window := "A", known_windows := ["A"] })
      = true ↔ dHealthy.handlesFails = false) ∧
    exOk (get_all_tabs dHealthy) = true :=
  ⟨(tab_ops_tagged_results dHealthy
      { original_window := "A", known_windows := ["A"] } "A" 0).2.2.2.2.1,
   (tab_ops_tagged_results dHealthy
      { original_window := "A", known_windows := ["A"] } "A" 0).2.2.2.2.2 rfl
      (by decide) (by decide)⟩

/-! Claim C4: behaviour of `close_current_tab`. -/

/-- Claim C4 (amended): with exactly one window open, `close_current_tab`
returns a "warn" result with no handle; with more windows open it returns an
"ok" result whose handle is the first surviving window — but that handle is
in `known_windows` afterwards only if the tracker already knew it (the
operation never reconciles `known_windows` with the live set). -/
theorem close_current_tab_spec (d : Driver) (s : TabState)
    (hf : d.handlesFails = false) (hcur : d.current ∈ d.windows)
    (hurl : ∀ w, d.urlFails w = false) :
    (d.windows = [d.current] →
      (close_current_tab d s).1.status = "warn" ∧
      (close_current_tab d s).1.handle = none) ∧
    (∀ h2 rest, d.windows.erase d.current = h2 :: rest →
      (close_current_tab d s).1.status = "ok" ∧
      (close_current_tab d s).1.handle = some h2 ∧
      h2 ∈ d.windows.erase d.current ∧
      (h2 ∈ (close_current_tab d s).2.2.known_windows ↔
        (h2 ∈ s.known_windows ∧ h2 ≠ d.current))) := by
  constructor
  · intro hone
    simp [close_current_tab, Driver.current_window_handle, Driver.close_window,
      Driver.window_handles, hf, hcur, hone]
  · intro h2 rest herase
    have hmem2 : h2 ∈ d.windows.erase d.current := by
      rw [herase]
      exact List.mem_cons_self h2 rest
    simp only [close_current_tab, Driver.current_window_handle,
      Driver.close_window, Driver.window_handles, hf, hcur, if_true, if_false,
      Bool.false_eq_true, ite_true, ite_false, herase]
    simp only [switch_to_tab, Driver.switch_to_window, Driver.current_url,
      Driver.current_title, hf, Bool.false_eq_true, ite_false]
    rw [if_pos (herase ▸ List.mem_cons_self h2 rest)]
    simp [hurl h2, hmem2, List.mem_filter]

/-- Counterexample to C4 as stated: on the healthy two-window driver with
only window "A" known, closing the current tab returns success with handle
"B", yet "B" is not in `known_windows` afterwards (the surviving set is
empty). -/
theorem close_tab_handle_not_known :
    (close_current_tab dHealthy
        { original_window := "A", known_windows := ["A"] }).1.status = "ok" ∧
    (close_current_tab dHealthy
        { original_window := "A", known_windows := ["A"] }).1.handle = some "B" ∧
    dHealthy.windows.length = 2 ∧
    (close_current_tab dHealthy
        { original_window := "A", known_windows := ["A"] }).2.2.known_windows = [] := by
  refine ⟨by decide, by decide, by decide, by decide⟩

/-- Witness for C4: both branches at concrete drivers. -/
theorem close_current_tab_spec_witness :
    ((close_current_tab dHealthy
        { original_window := "A", known_windows := ["A", "B"] }).1.status = "ok" ∧
     (close_current_tab dHealthy
        { original_window := "A", known_windows := ["A", "B"] }).1.handle = some "B") ∧
    ("B" ∈ (close_current_tab dHealthy
        { original_window := "A", known_windows := ["A", "B"] }).2.2.known_windows ↔
      ("B" ∈ ["A", "B"] ∧ "B" ≠ "A")) := by
  have h := (close_current_tab_spec dHealthy
    { original_window := "A", known_windows := ["A", "B"] }
    rfl (by decide) (fun w => rfl)).2 "B" [] (by decide)
  exact ⟨⟨h.1, h.2.1⟩, h.2.2.2⟩

/-! Claim C3: the `original_window ∈ known_windows` invariant over traces. -/

/-- The invariant of claim C3, relative to the session's original window. -/
def trackerInv (orig : String) (c : Driver × TabState) : Prop :=
  c.2.original_window = orig ∧ orig ∈ c.2.known_windows ∧ orig ∈ c.1.windows

/-- A `detect` step keeps the driver, keeps the original window, and either
keeps `known_windows` or replaces it by the live window set. -/
theorem applyStep_detect (d : Driver) (s : TabState) :
    (applyStep .detect (d, s)).1 = d ∧
    (applyStep .detect (d, s)).2.original_window = s.original_window ∧
    ((applyStep .detect (d, s)).2.known_windows = s.known_windows ∨
     (applyStep .detect (d, s)).2.known_windows = d.windows) := by
  unfold applyStep detect_new_tabs Driver.window_handles
  rcases hf : d.handlesFails <;> simp [hf]
  rcases hh : List.find? (fun h => !decide (h ∈ s.known_windows)) d.windows
    with - | w <;> simp [hh]

/-- A `newest` step keeps the live window set, keeps the original window,
and either keeps `known_windows` (raise before the update) or replaces it by
the live window set. -/
theorem applyStep_newest (d : Driver) (s : TabState) :
    (applyStep .newest (d, s)).1.windows = d.windows ∧
    (applyStep .newest (d, s)).2.original_window = s.original_window ∧
    ((applyStep .newest (d, s)).2.known_windows = s.known_windows ∨
     (applyStep .newest (d, s)).2.known_windows = d.windows) := by
  unfold applyStep switch_to_newest_tab
  rcases hw : d.window_handles with e | current_windows
  · simp [hw]
  · have hcw : current_windows = d.windows := ((window_handles_ok_iff d _).mp hw).2
    subst hcw
    simp only [hw]
    rcases hnt : (if s.known_windows.length < d.windows.length then
        d.windows.reverse.find? (fun h => !decide (h ∈ s.known_windows))
      else none) with - | h
    · simp only [hnt]
      rcases hch : d.current_window_handle with e | cur
      · simp [hch]
      · simp only [hch]
        rcases hu : d.current_url with e | u
        · simp [hu]
        · simp only [hu]
          rcases ht : d.current_title with e | t <;> simp [ht]
    · simp only [hnt]
      simp [switch_to_tab_windows]

/-- A `closeCur` step keeps the original window, and either leaves driver
and tracker untouched (raise before the close) or erases the closed current
window from both the live set and `known_windows`. -/
theorem applyStep_closeCur (d : Driver) (s : TabState) :
    (applyStep .closeCur (d, s)).2.original_window = s.original_window ∧
    (((applyStep .closeCur (d, s)).1.windows = d.windows ∧
      (applyStep .closeCur (d, s)).2.known_windows = s.known_windows) ∨
     ((applyStep .closeCur (d, s)).1.windows = d.windows.erase d.current ∧
      (applyStep .closeCur (d, s)).2.known_windows =
        s.known_windows.filter (fun w => !decide (w = d.current)))) := by
  unfold applyStep close_current_tab
  rcases hch : d.current_window_handle with e | ch
  · simp [hch]
  · have hch2 : ch = d.current := ((current_window_handle_ok_iff d ch).mp hch).2.2
    subst hch2
    simp only [hch]
    rcases hcl : d.close_window with e | d2
    · simp [hcl]
    · have hd2 : d2.windows = d.windows.erase d.current := by
        rw [close_window_ok_iff] at hcl
        rcases hcl with ⟨-, -, rfl⟩
        rfl
      simp only [hcl]
      rcases hw : d2.window_handles with e | remaining
      · simp [hw, hd2]
      · simp only [hw]
        rcases remaining with - | ⟨h2, rest⟩
        · simp [hd2]
        · simp [switch_to_tab_windows, hd2]

/-- A `clickSwitch` step keeps the original window; the live set is the old
one or the old one extended by the click, and `known_windows` is kept or
replaced by the post-click live set. -/
theorem applyStep_clickSwitch (d : Driver) (s : TabState) (eid : Nat) :
    (applyStep (.clickSwitch eid) (d, s)).2.original_window = s.original_window ∧
    ((applyStep (.clickSwitch eid) (d, s)).1.windows = d.windows ∨
     (applyStep (.clickSwitch eid) (d, s)).1.windows = d.windows ++ d.clickOpens eid) ∧
    ((applyStep (.clickSwitch eid) (d, s)).2.known_windows = s.known_windows ∨
     (applyStep (.clickSwitch eid) (d, s)).2.known_windows
       = d.windows ++ d.clickOpens eid) := by
  unfold applyStep click_and_switch_if_new_tab
  rcases hw : d.window_handles with e | handles_before
  · simp [hw]
  · simp only [hw]
    rcases hl : d.lookup_element eid with e | b
    · simp [hl]
    · simp only [hl]
      rcases b with - | -
      · simp
      · simp only [Bool.not_true]
        rcases hcl : d.click_element_raw eid with e | d2
        · simp [hcl]
        · have hd2 : d2.windows = d.windows ++ d.clickOpens eid := by
            unfold Driver.click_element_raw at hcl
            rcases hf : d.handlesFails <;> simp [hf] at hcl
            rw [← hcl]
          simp only [hcl]
          rcases hw2 : d2.window_handles with e | handles_after
          · simp [hw2, hd2]
          · have hha : handles_after = d2.windows :=
              ((window_handles_ok_iff d2 _).mp hw2).2
            simp only [hw2]
            rcases hnew : (handles_after.filter
                (fun h => !decide (h ∈ handles_before))).head? with - | new_tab
            · simp only [hnew]
              rcases hch : d2.current_window_handle with e | cur
              · simp [hch, hd2]
              · simp only [hch]
                rcases hu : d2.current_url with e | u
                · simp [hu, hd2]
                · simp only [hu]
                  rcases ht : d2.current_title with e | t <;> simp [ht, hd2]
            · simp only [hnew]
              by_cases hst : (switch_to_tab d2 new_tab).1.status = "ok"
              · simp [hst, switch_to_tab_windows, hd2, hha]
              · simp [hst, switch_to_tab_windows, hd2, hha]

/-- One safe step preserves the invariant. -/
theorem applyStep_preserves (orig : String) (st : TraceStep) (d : Driver)
    (s : TabState) (hJ : trackerInv orig (d, s))
    (hg : (match st with
           | TraceStep.envSet ws => decide (orig ∈ ws)
           | TraceStep.closeCur => !decide (d.current = orig)
           | _ => true) = true) :
    trackerInv orig (applyStep st (d, s)) := by
  obtain ⟨hJ1, hJ2, hJ3⟩ := hJ
  cases st with
  | envSet ws =>
    exact ⟨hJ1, hJ2, by simpa using of_decide_eq_true hg⟩
  | detect =>
    obtain ⟨hd, ho, hk⟩ := applyStep_detect d s
    refine ⟨ho.trans hJ1, ?_, by rw [hd]; exact hJ3⟩
    rcases hk with hk | hk <;> rw [hk]
    · exact hJ2
    · exact hJ3
  | newest =>
    obtain ⟨hd, ho, hk⟩ := applyStep_newest d s
    refine ⟨ho.trans hJ1, ?_, by rw [hd]; exact hJ3⟩
    rcases hk with hk | hk <;> rw [hk]
    · exact hJ2
    · exact hJ3
  | closeCur =>
    have hne : ¬ (d.current = orig) := by simpa using hg
    obtain ⟨ho, hk⟩ := applyStep_closeCur d s
    rcases hk with ⟨hw, hk⟩ | ⟨hw, hk⟩
    · exact ⟨ho.trans hJ1, hk ▸ hJ2, hw ▸ hJ3⟩
    · refine ⟨ho.trans hJ1, ?_, ?_⟩
      · rw [hk]
        simp only [List.mem_filter]
        exact ⟨hJ2, by simpa using fun he => hne he.symm⟩
      · rw [hw]
        exact (List.mem_erase_of_ne (fun he => hne he.symm)).mpr hJ3
  | clickSwitch eid =>
    obtain ⟨ho, hw, hk⟩ := applyStep_clickSwitch d s eid
    refine ⟨ho.trans hJ1, ?_, ?_⟩
    · rcases hk with hk | hk <;> rw [hk]
      · exact hJ2
      · exact List.mem_append_left _ hJ3
    · rcases hw with hw | hw <;> rw [hw]
      · exact hJ3
      · exact List.mem_append_left _ hJ3

/-- A safe trace preserves the invariant. -/
theorem runTrace_preserves (orig : String) :
    ∀ (trace : List TraceStep) (c : Driver × TabState),
      trackerInv orig c → trackerOriginalSafe orig trace c = true →
      trackerInv orig (runTrace trace c) := by
  intro trace
  induction trace with
  | nil => exact fun c hJ _ => hJ
  | cons st rest ih =>
    intro c hJ hsafe
    obtain ⟨d, s⟩ := c
    simp only [trackerOriginalSafe, Bool.and_eq_true] at hsafe
    exact ih (applyStep st (d, s))
      (applyStep_preserves orig st d s hJ hsafe.1) hsafe.2

/-- Claim C3 (amended): starting from session initialisation, the original
window stays a member of `known_windows` throughout any trace of tracker
operations and environment changes, provided the original window is never
removed from the live window set and `close_current_tab` never runs while
the original window is active.  (If the original window is closed
externally, reconciling operations drop it from `known_windows`; see the
counterexample.) -/
theorem original_in_known_when_live (d0 : Driver) (trace : List TraceStep)
    (hc : d0.current ∈ d0.windows)
    (hsafe : trackerOriginalSafe d0.current trace (d0, TabHandler.mk_state d0) = true) :
    (runTrace trace (d0, TabHandler.mk_state d0)).2.original_window = d0.current ∧
    d0.current ∈ (runTrace trace (d0, TabHandler.mk_state d0)).2.known_windows := by
  have h := runTrace_preserves d0.current trace (d0, TabHandler.mk_state d0)
    ⟨rfl, by simp [TabHandler.mk_state], hc⟩ hsafe
  exact ⟨h.1, h.2.1⟩

/-- Counterexample to C3 as stated: window "A" (the original) is closed
externally while window "B" opens; `detect_new_tabs` then resynchronises
`known_windows` to the live set, dropping the original even though no
tracker operation ever closed it. -/
theorem original_window_dropped_external_close :
    (runTrace [TraceStep.envSet ["B"], TraceStep.detect]
        (dHealthy, TabHandler.mk_state dHealthy)).2.original_window = "A" ∧
    (runTrace [TraceStep.envSet ["B"], TraceStep.detect]
        (dHealthy, TabHandler.mk_state dHealthy)).2.known_windows = ["B"] ∧
    decide (TraceStep.closeCur ∈ [TraceStep.envSet ["B"], TraceStep.detect]) = false := by
  refine ⟨by decide, by decide, by decide⟩

/-- Witness for C3 on a safe concrete trace. -/
theorem original_in_known_when_live_witness :
    (runTrace [TraceStep.envSet ["A", "B"], TraceStep.detect]
        (dHealthy, TabHandler.mk_state dHealthy)).2.original_window
      = dHealthy.current ∧
    dHealthy.current ∈ (runTrace [TraceStep.envSet ["A", "B"], TraceStep.detect]
        (dHealthy, TabHandler.mk_state dHealthy)).2.known_windows :=
  original_in_known_when_live dHealthy
    [TraceStep.envSet ["A", "B"], TraceStep.detect] (by decide) (by decide)

end MrBrowserUse
